import Mathlib

/-!
Verification of the airfeeld backend's anti-abuse and scoring core.

The definitions below are a shallow embedding of the Python sources under
`src/backend/src/`: times are modelled as integer seconds, database rows as
Lean structures, and each service call as a pure function from its inputs and
the relevant stored state to a result together with the updated state and the
security-log / audit-trail events it emits.  SHA-256 (an external library
call in the source) is passed in as an explicit function parameter, and
CPython's float arithmetic in the aircraft scorer is modelled operation by
operation with an explicit binary64 round-to-nearest-even function (`fl64`).
-/

namespace Airfeeld

/-- A security log event, as emitted by `log_security_event`
(`src/utils/logging.py`): an event type, a message, an optional hashed IP
and extra keyword context rendered as string pairs. -/
structure SecurityEvent where
  eventType : String
  message : String
  ipHash : Option String
  context : List (String × String)
  deriving Repr, DecidableEq

/-- Audit actions used by the services under verification
(`src/models/audit_log.py`, `AuditAction`). -/
inductive AuditAction where
  | rateLimitTriggered
  | powFailed
  deriving Repr, DecidableEq

/-- Audit actor types (`src/models/audit_log.py`, `AuditActorType`). -/
inductive AuditActorType where
  | system
  | player
  | admin
  | anonymous
  deriving Repr, DecidableEq

/-- An audit-trail record (`AuditLogEntry.create`): the data the services
store in the append-only audit table.  Only hashed identifiers appear. -/
structure AuditEvent where
  action : AuditAction
  actorType : AuditActorType
  ipHash : Option String
  context : List (String × String)
  deriving Repr, DecidableEq

/-- A row of the `rate_limit_entry` table (`src/models/rate_limit.py`,
`RateLimitEntry`).  The `ip_hash`/`endpoint` key is kept outside the
structure; times are integer seconds. -/
structure RateLimitEntry where
  request_count : ℤ
  window_start : ℤ
  window_duration_seconds : ℤ
  deriving Repr, DecidableEq

/-- `RateLimitEntry.window_end`: when the current window expires. -/
def RateLimitEntry.window_end (e : RateLimitEntry) : ℤ :=
  e.window_start + e.window_duration_seconds

/-- `RateLimitEntry.is_window_expired` at time `now`. -/
def RateLimitEntry.is_window_expired (e : RateLimitEntry) (now : ℤ) : Bool :=
  now > e.window_end

/-- The value `RateLimitService.check_rate_limit` produces: either the
`(limit, remaining, reset_timestamp)` triple or a raised `RateLimitError`
with its `retry_after_seconds`, `limit` and `window_seconds` payload. -/
inductive RateLimitResult where
  | ok (limit remaining resetTimestamp : ℤ)
  | rateLimited (retryAfterSeconds limit windowSeconds : ℤ)
  deriving Repr, DecidableEq

/-- `RateLimitResult.isOk`: the call succeeded (no `RateLimitError`). -/
def RateLimitResult.isOk : RateLimitResult → Bool
  | .ok _ _ _ => true
  | .rateLimited _ _ _ => false

/-- Everything observable about one `check_rate_limit` call: its return or
raised error, the stored entry afterwards, and the emitted events. -/
structure RateLimitOutcome where
  result : RateLimitResult
  entry : Option RateLimitEntry
  securityEvents : List SecurityEvent
  auditEvents : List AuditEvent
  deriving Repr, DecidableEq

/-- `RateLimitService.check_rate_limit`
(`src/services/rate_limit_service.py`, lines 40–133).  `ipHash` is the
already-hashed client IP (`hash_ip(client_ip)`), `limit`/`windowSeconds`
the endpoint's configuration from `get_rate_limit(endpoint)`, `entry?` the
stored row for the `(ip_hash, endpoint)` key, and `now` the current time in
seconds.  The disabled short-circuit, the create / reset / increment
branches, the over-limit check with its security log and audit record, and
the clamped `remaining` all mirror the source. -/
def check_rate_limit (rate_limit_enabled : Bool) (limit windowSeconds : ℤ)
    (ipHash endpoint : String) (entry? : Option RateLimitEntry) (now : ℤ) :
    RateLimitOutcome :=
  if !rate_limit_enabled then
    -- Rate limiting disabled: return (0, 0, 0) before touching any state.
    ⟨.ok 0 0 0, entry?, [], []⟩
  else
    let (entry, remaining) : RateLimitEntry × ℤ :=
      match entry? with
      | none =>
        -- First request from this IP for this endpoint
        (⟨1, now, windowSeconds⟩, limit - 1)
      | some e =>
        if e.is_window_expired now then
          -- Window expired, reset
          (⟨1, now, e.window_duration_seconds⟩, limit - 1)
        else
          -- Increment counter
          (⟨e.request_count + 1, e.window_start, e.window_duration_seconds⟩,
            limit - (e.request_count + 1))
    let resetTimestamp := entry.window_end
    if entry.request_count > limit then
      let retryAfter := max 1 (entry.window_end - now)
      ⟨.rateLimited retryAfter limit windowSeconds, some entry,
        [⟨"rate_limit", "Rate limit exceeded for " ++ endpoint, some ipHash,
          [("count", toString entry.request_count), ("limit", toString limit)]⟩],
        [⟨.rateLimitTriggered, .anonymous, some ipHash,
          [("endpoint", endpoint), ("count", toString entry.request_count),
           ("limit", toString limit)]⟩]⟩
    else
      ⟨.ok limit (max 0 remaining) resetTimestamp, some entry, [], []⟩

/-- Replay a list of request times against `check_rate_limit` (rate limiting
enabled), threading the stored entry; returns the per-request results and
the final stored entry. -/
def runRequests (limit windowSeconds : ℤ) (ipHash endpoint : String) :
    Option RateLimitEntry → List ℤ → List RateLimitResult × Option RateLimitEntry
  | entry?, [] => ([], entry?)
  | entry?, now :: rest =>
    let o := check_rate_limit true limit windowSeconds ipHash endpoint entry? now
    let (rs, final) := runRequests limit windowSeconds ipHash endpoint o.entry rest
    (o.result :: rs, final)

/-- A row of the `proof_of_work_challenge` table
(`src/models/pow_challenge.py`, `ProofOfWorkChallenge`).  The UUID primary
key is kept as a string, times are integer seconds. -/
structure PowChallenge where
  id : String
  challenge_nonce : String
  difficulty : ℕ
  solved_nonce : Option String
  solved_at : Option ℤ
  expires_at : ℤ
  created_at : ℤ
  client_ip_hash : String
  deriving Repr, DecidableEq

/-- `ProofOfWorkChallenge.is_expired` at time `now`. -/
def PowChallenge.is_expired (ch : PowChallenge) (now : ℤ) : Bool :=
  now > ch.expires_at

/-- `ProofOfWorkChallenge.is_solved`: a solution nonce has been stored. -/
def PowChallenge.is_solved (ch : PowChallenge) : Bool :=
  ch.solved_nonce.isSome

/-- The target prefix `"0" * difficulty` used by the hash check. -/
def powTarget (difficulty : ℕ) : String :=
  String.mk (List.replicate difficulty '0')

/-- Python's `str.startswith` / Lean's `String.startsWith`, expressed on the
underlying character lists. -/
def strStartsWith (s pre : String) : Bool :=
  pre.data.isPrefixOf s.data

/-- `verify_pow_hash` (`src/services/pow_service.py`, lines 269–290):
the hex SHA-256 digest of the UTF-8 concatenation
`challenge_nonce + solution_nonce` must start with `difficulty` literal
`'0'` characters.  `sha256hex` is the external SHA-256 hex-digest
primitive, passed in as a parameter. -/
def verify_pow_hash (sha256hex : String → String)
    (challenge_nonce solution_nonce : String) (difficulty : ℕ) : Bool :=
  strStartsWith (sha256hex (challenge_nonce ++ solution_nonce)) (powTarget difficulty)

/-- `ProofOfWorkChallenge.verify_solution` (`src/models/pow_challenge.py`,
lines 125–144): reject expired challenges, otherwise apply the hash-prefix
check. -/
def PowChallenge.verify_solution (sha256hex : String → String)
    (ch : PowChallenge) (solution_nonce : String) (now : ℤ) : Bool :=
  if ch.is_expired now then false
  else strStartsWith (sha256hex (ch.challenge_nonce ++ solution_nonce))
    (powTarget ch.difficulty)

/-- `ProofOfWorkChallenge.mark_solved` (`src/models/pow_challenge.py`,
lines 146–149). -/
def PowChallenge.mark_solved (ch : PowChallenge) (solution_nonce : String)
    (now : ℤ) : PowChallenge :=
  { ch with solved_nonce := some solution_nonce, solved_at := some now }

/-- The distinct failure exits of `ProofOfWorkService.verify_solution`.
The Python code raises `ProofOfWorkError` with a distinct message at each
site (and `ChallengeExpiredError` for expiry); the tags below correspond
one-to-one with those raise sites. -/
inductive PowError where
  | challengeNotFound
  | challengeAlreadyUsed
  | challengeExpired
  | ipMismatch
  | invalidSolution
  deriving Repr, DecidableEq

deriving instance DecidableEq for Except

/-- Everything observable about one `verify_solution` call: the returned
success (carrying the updated, solved challenge row) or the raised error,
plus the emitted security-log and audit-trail events. -/
structure VerifyOutcome where
  result : Except PowError PowChallenge
  securityEvents : List SecurityEvent
  auditEvents : List AuditEvent
  deriving Repr, DecidableEq

namespace PowService

/-- `ProofOfWorkService.verify_solution`
(`src/services/pow_service.py`, lines 93–190).  `challenge?` is the stored
row fetched for `challenge_id` (`none` when the id is unknown), `challengeId`
its string form used in events, `ipHash` the already-hashed client IP
(`hash_ip(client_ip)`), and `now` the current time in seconds.  The five
checks run in source order: not-found, already-used, expired, IP-mismatch,
hash-check; only the invalid-solution branch writes an audit record, and the
success branch is the single mutation point (`mark_solved`). -/
def verify_solution (sha256hex : String → String)
    (challenge? : Option PowChallenge) (challengeId : String)
    (solution_nonce ipHash : String) (now : ℤ) : VerifyOutcome :=
  match challenge? with
  | none =>
    ⟨.error .challengeNotFound,
      [⟨"pow_failure", "Challenge not found", some ipHash,
        [("challenge_id", challengeId)]⟩], []⟩
  | some ch =>
    if ch.is_solved then
      ⟨.error .challengeAlreadyUsed,
        [⟨"pow_failure", "Challenge already used", some ipHash,
          [("challenge_id", challengeId)]⟩], []⟩
    else if ch.is_expired now then
      ⟨.error .challengeExpired,
        [⟨"pow_failure", "Challenge expired", some ipHash,
          [("challenge_id", challengeId)]⟩], []⟩
    else if ch.client_ip_hash ≠ ipHash then
      ⟨.error .ipMismatch,
        [⟨"pow_failure", "IP mismatch", some ipHash,
          [("challenge_id", challengeId)]⟩], []⟩
    else if !(ch.verify_solution sha256hex solution_nonce now) then
      ⟨.error .invalidSolution,
        [⟨"pow_failure", "Invalid solution", some ipHash,
          [("challenge_id", challengeId)]⟩],
        [⟨.powFailed, .anonymous, some ipHash, [("challenge_id", challengeId)]⟩]⟩
    else
      ⟨.ok (ch.mark_solved solution_nonce now), [], []⟩

/-- Number of challenges for `ipHash` created within the trailing 15-minute
window, as counted by the query in `_check_challenge_rate_limit`
(`created_at >= now - 15 minutes`). -/
def countRecentChallenges (challenges : List PowChallenge) (ipHash : String)
    (now : ℤ) : ℕ :=
  (challenges.filter fun c =>
    decide (c.client_ip_hash = ipHash ∧ now - 900 ≤ c.created_at)).length

/-- `ProofOfWorkService._check_challenge_rate_limit`
(`src/services/pow_service.py`, lines 236–266): raise
`RateLimitError(retry_after_seconds=900, limit=10, window_seconds=900)` when
at least 10 challenges for this IP hash were created in the trailing
15 minutes; only a security log event is emitted, no audit record. -/
def check_challenge_rate_limit (challenges : List PowChallenge)
    (ipHash : String) (now : ℤ) :
    Except (ℤ × ℤ × ℤ) Unit × List SecurityEvent × List AuditEvent :=
  let count := countRecentChallenges challenges ipHash now
  if 10 ≤ count then
    (.error (900, 10, 900),
      [⟨"rate_limit", "Too many PoW challenge requests", some ipHash,
        [("count", toString count)]⟩], [])
  else
    (.ok (), [], [])

/-- The proof-of-work settings consumed by `create_challenge`
(`src/config.py`, `Settings`). -/
structure PowSettings where
  pow_difficulty : ℕ
  pow_timeout_seconds : ℤ
  pow_low_power_difficulty : ℕ
  pow_low_power_timeout_seconds : ℤ
  deriving Repr, DecidableEq

/-- `ProofOfWorkService.create_challenge`
(`src/services/pow_service.py`, lines 43–91) composed with
`ProofOfWorkChallenge.create` (`src/models/pow_challenge.py`, lines 87–113).
`challenges` is the stored challenge table, `newId`/`nonce` stand for the
random `uuid4()` and `secrets.token_hex(16)` draws, `ipHash` the hashed
client IP.  The inline rate-limit check runs first; on success a fresh
unsolved challenge is built with `expires_at = now + ttl`. -/
def create_challenge (settings : PowSettings) (challenges : List PowChallenge)
    (newId nonce ipHash : String) (low_power : Bool) (now : ℤ) :
    Except (ℤ × ℤ × ℤ) PowChallenge :=
  match (check_challenge_rate_limit challenges ipHash now).1 with
  | .error e => .error e
  | .ok _ =>
    let (difficulty, ttl) :=
      if low_power then
        (settings.pow_low_power_difficulty, settings.pow_low_power_timeout_seconds)
      else
        (settings.pow_difficulty, settings.pow_timeout_seconds)
    .ok ⟨newId, nonce, difficulty, none, none, now + ttl, now, ipHash⟩

end PowService

/-- `RoundStatus` (`src/models/game_round.py`). -/
inductive RoundStatus where
  | active
  | completed
  | abandoned
  deriving Repr, DecidableEq

/-- A row of the `game_rounds` table (`src/models/game_round.py`,
`GameRound`): the fields `submit_guess` and `record_guess` read or write.
Ids are modelled as naturals, coordinates as rationals, scores as the
integers the code stores. -/
structure GameRound where
  player_id : ℕ
  status : RoundStatus
  started_at : ℤ
  expires_at : ℤ
  completed_at : Option ℤ
  guesses_made : ℕ
  max_guesses : ℕ
  final_score : ℤ
  aircraft_score : ℤ
  location_score : ℤ
  best_aircraft_guess : Option String
  best_location_lat : Option ℚ
  best_location_lon : Option ℚ
  deriving Repr, DecidableEq

/-- `GameRound.create` (`src/models/game_round.py`, lines 98–123): a fresh
active round with zero guesses and zero scores. -/
def GameRound.create (player_id : ℕ) (now round_duration_seconds : ℤ)
    (max_guesses : ℕ) : GameRound :=
  ⟨player_id, .active, now, now + round_duration_seconds, none, 0, max_guesses,
    0, 0, 0, none, none, none⟩

/-- Python truthiness of an optional string (`if aircraft_guess:`):
present and non-empty. -/
def strTruthy : Option String → Bool
  | none => false
  | some s => s ≠ ""

/-- `GameRound.record_guess` (`src/models/game_round.py`, lines 144–179):
increment `guesses_made`; update each best sub-score (and its associated
best-guess value, when one was supplied) only when the new score is
strictly greater; recompute `final_score` as the sum of the two bests. -/
def GameRound.record_guess (r : GameRound) (aircraft_score location_score : ℤ)
    (aircraft_guess : Option String) (location_lat location_lon : Option ℚ) :
    GameRound :=
  let r1 := { r with guesses_made := r.guesses_made + 1 }
  let r2 :=
    if aircraft_score > r1.aircraft_score then
      { r1 with
        aircraft_score := aircraft_score
        best_aircraft_guess :=
          if strTruthy aircraft_guess then aircraft_guess
          else r1.best_aircraft_guess }
    else r1
  let r3 :=
    if location_score > r2.location_score then
      { r2 with
        location_score := location_score
        best_location_lat :=
          if location_lat.isSome then location_lat else r2.best_location_lat
        best_location_lon :=
          if location_lon.isSome then location_lon else r2.best_location_lon }
    else r2
  { r3 with final_score := r3.aircraft_score + r3.location_score }

/-- `GameRound.complete` (`src/models/game_round.py`, lines 181–184). -/
def GameRound.complete (r : GameRound) (now : ℤ) : GameRound :=
  { r with status := .completed, completed_at := some now }

/-- One guess as fed to `record_guess` by `submit_guess`. -/
structure GuessInput where
  aircraft_score : ℤ
  location_score : ℤ
  aircraft_guess : Option String
  location_lat : Option ℚ
  location_lon : Option ℚ
  deriving Repr, DecidableEq

/-- Record a whole list of guesses on a round, in order. -/
def recordAll (r : GameRound) (gs : List GuessInput) : GameRound :=
  gs.foldl (fun r g =>
    r.record_guess g.aircraft_score g.location_score g.aircraft_guess
      g.location_lat g.location_lon) r

/-- The errors `GameService.submit_guess` can raise. -/
inductive SubmitGuessError where
  | gameRoundNotFound
  | roundNotActive
  | roundExpired
  deriving Repr, DecidableEq

/-- The `Guess` row created on a successful submission
(`src/models/guess.py`): the fields relevant to the claims. -/
structure GuessRecord where
  guess_number : ℕ
  aircraft_score : ℤ
  location_score : ℤ
  deriving Repr, DecidableEq

/-- `GameService.submit_guess` (`src/services/game_service.py`,
lines 105–208).  `round?` is the stored round fetched for the id,
`player_id` the caller, `now` the current time; `aircraft_score` and
`location_score` stand for the values the ScoringEngine computed for this
guess (`_score_aircraft_guess` / `_score_location_guess`, modelled
separately).  Returns the raised error or the created `Guess`, together
with the stored round afterwards.  The checks run in source order:
ownership, status ≠ ACTIVE (no transition), expiry (transition to
Completed, then raise), guess budget (transition, then raise); a
successful guess is recorded and the round completed when it reaches
`max_guesses`. -/
def submit_guess (round? : Option GameRound) (player_id : ℕ) (now : ℤ)
    (aircraft_score location_score : ℤ) (aircraft_guess : Option String)
    (location_lat location_lon : Option ℚ) :
    Except SubmitGuessError GuessRecord × Option GameRound :=
  match round? with
  | none => (.error .gameRoundNotFound, none)
  | some round =>
    if round.player_id ≠ player_id then
      (.error .gameRoundNotFound, some round)
    else if round.status ≠ .active then
      (.error .roundNotActive, some round)
    else if now > round.expires_at then
      (.error .roundExpired,
        some { round with status := .completed, completed_at := some now })
    else if round.guesses_made ≥ round.max_guesses then
      (.error .roundNotActive, some (round.complete now))
    else
      let guess : GuessRecord :=
        ⟨round.guesses_made + 1, aircraft_score, location_score⟩
      let round1 := round.record_guess aircraft_score location_score
        aircraft_guess location_lat location_lon
      let round2 :=
        if round1.guesses_made ≥ round1.max_guesses then round1.complete now
        else round1
      (.ok guess, some round2)

/-- Scoring constants (`src/services/game_service.py`, lines 36–42). -/
def MAX_AIRCRAFT_SCORE : ℚ := 1000

/-- Maximum location score (`src/services/game_service.py`, line 38). -/
def MAX_LOCATION_SCORE : ℚ := 1000

/-- Distance below which a location guess earns full points (line 41). -/
def PERFECT_DISTANCE_KM : ℚ := 50

/-- Distance beyond which a location guess earns nothing (line 42). -/
def ZERO_SCORE_DISTANCE_KM : ℚ := 5000

/-- Inner loop of `_levenshtein_distance`
(`src/services/game_service.py`, lines 373–379): build the tail of the
current DP row from `c1`, the remaining characters of `s2`, the matching
tail of the previous row, and the last value `curj` placed in the current
row.  `min ins (min del sub)` is Python's `min(insertions, deletions,
substitutions)`. -/
def levRowAux (c1 : Char) : List Char → List ℕ → ℕ → List ℕ
  | [], _, _ => []
  | _ :: _, [], _ => []
  | _ :: _, [_], _ => []
  | c2 :: s2, pj :: pj1 :: prest, curj =>
    let ins := pj1 + 1
    let del := curj + 1
    let sub := pj + (if c1 ≠ c2 then 1 else 0)
    let v := min ins (min del sub)
    v :: levRowAux c1 s2 (pj1 :: prest) v

/-- Outer loop of `_levenshtein_distance` (lines 373–380): fold each
character of `s1` into a new row, starting each row `i` with `i + 1`. -/
def levRows (s2 : List Char) : List Char → List ℕ → ℕ → List ℕ
  | [], previous_row, _ => previous_row
  | c1 :: s1rest, previous_row, i =>
    let current_row := (i + 1) :: levRowAux c1 s2 previous_row (i + 1)
    levRows s2 s1rest current_row (i + 1)

/-- `_levenshtein_distance` after the initial swap (lines 368–382):
`previous_row = range(len(s2) + 1)`, then the row recurrence, returning the
last entry of the final row. -/
def levCore (s1 s2 : List Char) : ℕ :=
  if s2.length = 0 then s1.length
  else (levRows s2 s1 (List.range (s2.length + 1)) 0).getLastD 0

/-- `GameService._levenshtein_distance`
(`src/services/game_service.py`, lines 363–382). -/
def levenshtein_distance (s1 s2 : List Char) : ℕ :=
  if s1.length < s2.length then levCore s2 s1 else levCore s1 s2

/-- Strip leading and trailing whitespace, Python's `str.strip()`. -/
def stripWS (l : List Char) : List Char :=
  ((l.dropWhile Char.isWhitespace).reverse.dropWhile Char.isWhitespace).reverse

/-- `guess.lower().strip()` — lowercase then strip, as a character list. -/
def normalize (s : String) : List Char :=
  stripWS (s.data.map Char.toLower)

/-- Python's substring containment `needle in hay`. -/
def containsSub (needle hay : List Char) : Bool :=
  decide (needle <:+: hay)

/-- Round a rational to the nearest integer, ties to even — the rounding
step of IEEE-754 round-to-nearest-even once a value has been scaled into
the mantissa range. -/
def roundHalfEven (x : ℚ) : ℤ :=
  let n := ⌊x⌋
  let frac := x - n
  if frac < 1 / 2 then n
  else if 1 / 2 < frac then n + 1
  else if 2 ∣ n then n else n + 1

/-- Round a rational to the nearest IEEE-754 binary64 value
(round-to-nearest-even): scale the value into the 53-bit mantissa binade
`[2^52, 2^53)`, round, and scale back.  Every CPython float operation
`x ∘ y` on the scoring paths is modelled as `fl64` of the exact result,
and every float literal `0.x` as `fl64` of its decimal value; overflow and
subnormals never arise in the ranges this development evaluates. -/
def fl64 (q : ℚ) : ℚ :=
  if q = 0 then 0
  else
    let e : ℤ := Int.log 2 |q| - 52
    (roundHalfEven (q / 2 ^ e) : ℚ) * 2 ^ e

/-- `GameService._score_aircraft_guess`
(`src/services/game_service.py`, lines 319–361).  CPython evaluates the
two partial-credit branches in IEEE-754 binary64: each division,
subtraction and multiplication rounds its exact result (`fl64`), the
literals `0.8` and `0.6` denote `fl64 (8/10)` and `fl64 (6/10)`, the
products associate to the left as in the source, and `int(...)` of these
nonnegative values truncates, i.e. takes the floor. -/
def score_aircraft_guess (guess actual : String) : ℤ :=
  let guess_lower := normalize guess
  let actual_lower := normalize actual
  -- Exact match
  if guess_lower = actual_lower then 1000
  -- Contains match (either direction)
  else if containsSub guess_lower actual_lower ||
      containsSub actual_lower guess_lower then
    let shorter : ℕ := min guess_lower.length actual_lower.length
    let longer : ℕ := max guess_lower.length actual_lower.length
    let ratio := fl64 ((shorter : ℚ) / (longer : ℚ))
    ⌊fl64 (fl64 (MAX_AIRCRAFT_SCORE * ratio) * fl64 (8 / 10))⌋
  else
    -- Levenshtein-based similarity
    let distance := levenshtein_distance guess_lower actual_lower
    let max_len : ℕ := max guess_lower.length actual_lower.length
    if max_len = 0 then 0
    else
      let similarity : ℚ := fl64 (1 - fl64 ((distance : ℚ) / (max_len : ℚ)))
      if similarity < 1 / 2 then 0
      else
        ⌊fl64 (fl64 (fl64 (MAX_AIRCRAFT_SCORE * fl64 (similarity - 1 / 2))
          * 2) * fl64 (6 / 10))⌋

/-- The aircraft-similarity score exactly as claim C5 states it, in exact
arithmetic: 1000 on exact equality of the normalized strings; else, when
one contains the other, `floor(1000 * (shorter_len / longer_len) * 0.8)`;
else 0 when the Levenshtein similarity is below 0.5 and
`floor(1000 * (similarity - 0.5) * 2 * 0.6)` otherwise.  The program
departs from this exact formula on some inputs because it computes in
binary64 (see the C5 counterexample). -/
def aircraftScoreClaim (guess truth : String) : ℤ :=
  let g := normalize guess
  let t := normalize truth
  if g = t then 1000
  else if containsSub g t || containsSub t g then
    ⌊(1000 : ℚ) * ((min g.length t.length : ℚ) / (max g.length t.length : ℚ))
      * (8 / 10)⌋
  else
    let similarity : ℚ :=
      1 - (levenshtein_distance g t : ℚ) / (max g.length t.length : ℚ)
    if similarity < 1 / 2 then 0
    else ⌊(1000 : ℚ) * (similarity - 1 / 2) * 2 * (6 / 10)⌋

/-- The aircraft-similarity score as claim C5 reads once amended: the same
tiering, with the partial-credit arithmetic performed in binary64
(the specification side of the refinement). -/
def aircraftScoreClaimFP (guess truth : String) : ℤ :=
  let g := normalize guess
  let t := normalize truth
  if g = t then 1000
  else if containsSub g t || containsSub t g then
    ⌊fl64 (fl64 ((1000 : ℚ) *
        fl64 ((min g.length t.length : ℚ) / (max g.length t.length : ℚ)))
      * fl64 (8 / 10))⌋
  else
    let similarity : ℚ := fl64 (1 -
      fl64 ((levenshtein_distance g t : ℚ) / (max g.length t.length : ℚ)))
    if similarity < 1 / 2 then 0
    else
      ⌊fl64 (fl64 (fl64 ((1000 : ℚ) * fl64 (similarity - 1 / 2)) * 2)
        * fl64 (6 / 10))⌋

/-- The distance-to-score mapping inside `_score_location_guess`
(`src/services/game_service.py`, lines 411–421): full credit within
`PERFECT_DISTANCE_KM`, nothing beyond `ZERO_SCORE_DISTANCE_KM`, linear
decay in between (`int()` of a nonnegative value modelled as floor). -/
def scoreFromDistance (distance_km : ℚ) : ℤ :=
  if distance_km ≤ PERFECT_DISTANCE_KM then 1000
  else if distance_km ≥ ZERO_SCORE_DISTANCE_KM then 0
  else
    let range_km := ZERO_SCORE_DISTANCE_KM - PERFECT_DISTANCE_KM
    let excess_km := distance_km - PERFECT_DISTANCE_KM
    let ratio := 1 - excess_km / range_km
    ⌊MAX_LOCATION_SCORE * ratio⌋

/-- `GameService._get_airport_coordinates`
(`src/services/game_service.py`, lines 425–437): the coordinate lookup in
the source is an unimplemented placeholder that always returns `None`. -/
def get_airport_coordinates : String → Option (ℚ × ℚ) :=
  fun _ => none

/-- `GameService._score_location_guess`
(`src/services/game_service.py`, lines 384–423).  `lookup` is the
airport-coordinate collaborator (`_get_airport_coordinates` in the source,
i.e. `get_airport_coordinates` above); `haversine` abstracts
`_haversine_distance`, whose transcendental floating-point trigonometry is
not modelled — the claims only constrain what is done with its result.
Python's falsy test `if not airport_code` covers both `None` and `""`. -/
def score_location_guess (lookup : String → Option (ℚ × ℚ))
    (haversine : ℚ → ℚ → ℚ → ℚ → ℚ)
    (guess_lat guess_lon : ℚ) (airport_code : Option String) :
    ℤ × Option ℚ :=
  match airport_code with
  | none => (0, none)
  | some code =>
    if code = "" then (0, none)
    else
      match lookup code with
      | none => (0, none)
      | some (airport_lat, airport_lon) =>
        let distance_km := haversine guess_lat guess_lon airport_lat airport_lon
        (scoreFromDistance distance_km, some distance_km)

/-! ### Rate limiter lemmas -/

/-- One live-window request: the counter increments and, while the new
count stays within the limit, the call succeeds. -/
lemma check_rate_limit_increment_ok (limit windowSeconds c t0 now : ℤ)
    (ipHash endpoint : String)
    (hnow : now ≤ t0 + windowSeconds) (hc : c + 1 ≤ limit) :
    check_rate_limit true limit windowSeconds ipHash endpoint
      (some ⟨c, t0, windowSeconds⟩) now =
      ⟨.ok limit (max 0 (limit - (c + 1))) (t0 + windowSeconds),
        some ⟨c + 1, t0, windowSeconds⟩, [], []⟩ := by
  have h1 : ¬ now > t0 + windowSeconds := by omega
  have h2 : ¬ c + 1 > limit := by omega
  simp [check_rate_limit, RateLimitEntry.is_window_expired,
    RateLimitEntry.window_end, h1, h2]

/-- Replaying any number of live-window requests that keeps the count
within the limit: every request succeeds and the final count is the
starting count plus the number of requests. -/
lemma runRequests_within (limit windowSeconds t0 : ℤ) (ipHash endpoint : String) :
    ∀ (ts : List ℤ) (c : ℤ), (∀ t ∈ ts, t ≤ t0 + windowSeconds) →
      c + ts.length ≤ limit →
      ((runRequests limit windowSeconds ipHash endpoint
          (some ⟨c, t0, windowSeconds⟩) ts).1.all RateLimitResult.isOk = true) ∧
      (runRequests limit windowSeconds ipHash endpoint
          (some ⟨c, t0, windowSeconds⟩) ts).2 =
        some ⟨c + ts.length, t0, windowSeconds⟩
  | [], c, _, _ => by simp [runRequests]
  | t :: ts, c, hts, hc => by
    have ht : t ≤ t0 + windowSeconds := hts t (List.mem_cons_self t ts)
    have hlen : (0 : ℤ) ≤ ts.length := Int.ofNat_nonneg ts.length
    have hc' : c + (1 + (ts.length : ℤ)) ≤ limit := by
      simpa [List.length_cons, add_comm] using hc
    have hstep := check_rate_limit_increment_ok limit windowSeconds c t0 t
      ipHash endpoint ht (by omega)
    have hrest := runRequests_within limit windowSeconds t0 ipHash endpoint ts
      (c + 1) (fun u hu => hts u (List.mem_cons_of_mem t hu)) (by omega)
    simp only [runRequests, hstep]
    refine ⟨?_, ?_⟩
    · simp [RateLimitResult.isOk, hrest.1]
    · rw [hrest.2]
      simp only [List.length_cons]
      congr 1
      push_cast
      ring_nf

/-! ### Claim theorems: rate limiter -/

/-- C1: `check_rate_limit` implements a fixed window per
`(ip_digest, endpoint)` key: the first request for a key creates a window
with count 1; a request arriving when `now > window_start + window_duration`
resets the window (count 1, `window_start = now`) and succeeds; otherwise
the count is incremented and, when the post-increment count exceeds the
configured limit `K`, the call fails with a `RateLimitError` carrying
`retry_after_seconds = max 1 (window_end - now)`.  Consequently, for a key
with limit `K` and window `W`, requests `1..K` within one window succeed
and request `K+1` fails, and the reported remaining value is never
negative. -/
theorem check_rate_limit_fixed_window (K W t0 : ℤ) (ipHash endpoint : String)
    (hK : 1 ≤ K) :
    (check_rate_limit true K W ipHash endpoint none t0 =
      ⟨.ok K (K - 1) (t0 + W), some ⟨1, t0, W⟩, [], []⟩) ∧
    (∀ (e : RateLimitEntry) (now : ℤ),
      e.window_start + e.window_duration_seconds < now →
      check_rate_limit true K W ipHash endpoint (some e) now =
        ⟨.ok K (K - 1) (now + e.window_duration_seconds),
          some ⟨1, now, e.window_duration_seconds⟩, [], []⟩) ∧
    (∀ (e : RateLimitEntry) (now : ℤ),
      now ≤ e.window_start + e.window_duration_seconds →
      (check_rate_limit true K W ipHash endpoint (some e) now).entry =
        some ⟨e.request_count + 1, e.window_start, e.window_duration_seconds⟩ ∧
      (K < e.request_count + 1 →
        (check_rate_limit true K W ipHash endpoint (some e) now).result =
          .rateLimited
            (max 1 (e.window_start + e.window_duration_seconds - now)) K W)) ∧
    (∀ ts : List ℤ, (∀ t ∈ ts, t ≤ t0 + W) → 1 + (ts.length : ℤ) ≤ K →
      ((runRequests K W ipHash endpoint none (t0 :: ts)).1.all
        RateLimitResult.isOk = true) ∧
      (runRequests K W ipHash endpoint none (t0 :: ts)).2 =
        some ⟨1 + (ts.length : ℤ), t0, W⟩) ∧
    (∀ now : ℤ, now ≤ t0 + W →
      (check_rate_limit true K W ipHash endpoint (some ⟨K, t0, W⟩) now).result =
        .rateLimited (max 1 (t0 + W - now)) K W) ∧
    (∀ (enabled : Bool) (e? : Option RateLimitEntry) (now l r s : ℤ),
      (check_rate_limit enabled K W ipHash endpoint e? now).result = .ok l r s →
      0 ≤ r) := by
  have hfirst : check_rate_limit true K W ipHash endpoint none t0 =
      ⟨.ok K (K - 1) (t0 + W), some ⟨1, t0, W⟩, [], []⟩ := by
    have h2 : ¬ (1 : ℤ) > K := by omega
    have h3 : max 0 (K - 1) = K - 1 := max_eq_right (by omega)
    simp [check_rate_limit, RateLimitEntry.window_end, h2, h3]
  refine ⟨hfirst, ?_, ?_, ?_, ?_, ?_⟩
  · intro e now hexp
    have h1 : now > e.window_start + e.window_duration_seconds := hexp
    have h2 : ¬ (1 : ℤ) > K := by omega
    have h3 : max 0 (K - 1) = K - 1 := max_eq_right (by omega)
    simp [check_rate_limit, RateLimitEntry.is_window_expired,
      RateLimitEntry.window_end, h1, h2, h3]
  · intro e now hlive
    have h1 : ¬ now > e.window_start + e.window_duration_seconds := by omega
    constructor
    · by_cases h2 : e.request_count + 1 > K <;>
        simp [check_rate_limit, RateLimitEntry.is_window_expired,
          RateLimitEntry.window_end, h1, h2]
    · intro h2
      have h2' : e.request_count + 1 > K := h2
      simp [check_rate_limit, RateLimitEntry.is_window_expired,
        RateLimitEntry.window_end, h1, h2']
  · intro ts hts hlen
    have hrest := runRequests_within K W t0 ipHash endpoint ts 1 hts (by omega)
    simp only [runRequests, hfirst]
    exact ⟨by simp [RateLimitResult.isOk, hrest.1], by
      rw [hrest.2]⟩
  · intro now hnow
    have h1 : ¬ now > t0 + W := by omega
    have h2 : K < K + 1 := by omega
    simp [check_rate_limit, RateLimitEntry.is_window_expired,
      RateLimitEntry.window_end, h1, h2]
  · intro enabled e? now l r s h
    rcases enabled with _ | _
    · simp [check_rate_limit] at h
      omega
    · rcases e? with _ | e
      · simp only [check_rate_limit, Bool.not_true, Bool.false_eq_true,
          if_false] at h
        split at h
        · exact absurd h (by simp)
        · rw [RateLimitResult.ok.injEq] at h
          exact h.2.1 ▸ le_sup_left
      · simp only [check_rate_limit, Bool.not_true, Bool.false_eq_true,
          if_false] at h
        split at h <;> split at h <;>
          first
          | (simp only [RateLimitResult.ok.injEq] at h
             exact h.2.1 ▸ le_sup_left)
          | exact absurd h (by simp)

/-- C1 witness: with limit 2 and window 10 starting at time 0, both of two
in-window requests succeed, and a third in-window request is rejected with
the computed retry delay. -/
theorem check_rate_limit_fixed_window_witness :
    ((runRequests 2 10 "iphash" "/game/guess" none [0, 3]).1.all
      RateLimitResult.isOk = true) ∧
    ((check_rate_limit true 2 10 "iphash" "/game/guess"
        (some ⟨2, 0, 10⟩) 5).result = .rateLimited (max 1 (0 + 10 - 5)) 2 10) :=
  ⟨((check_rate_limit_fixed_window 2 10 0 "iphash" "/game/guess"
      (by decide)).2.2.2.1 [3] (by decide) (by decide)).1,
    (check_rate_limit_fixed_window 2 10 0 "iphash" "/game/guess"
      (by decide)).2.2.2.2.1 5 (by decide)⟩

/-- C10: with `rate_limit_enabled = false`, `check_rate_limit` returns
`(0, 0, 0)` for every client and endpoint, leaves the stored window
untouched (whatever it is), rejects nothing, and emits no events — the
reported limit, remaining and reset values are all zero rather than the
endpoint's configured values. -/
theorem check_rate_limit_disabled (limit windowSeconds : ℤ)
    (ipHash endpoint : String) (entry? : Option RateLimitEntry) (now : ℤ) :
    check_rate_limit false limit windowSeconds ipHash endpoint entry? now =
      ⟨.ok 0 0 0, entry?, [], []⟩ :=
  rfl

/-! ### Claim theorems: proof of work -/

/-- C2: `verify_solution` reports the first failing check in the order
not-found → already-used → expired → IP-mismatch → hash-check; a call with
a non-matching client IP digest never succeeds (and, when the earlier
checks pass, fails precisely with the IP-mismatch error); and when all
earlier checks pass, the call succeeds exactly when the hex SHA-256 digest
of `challenge_nonce ++ solution_nonce` starts with `difficulty` literal
`'0'` characters. -/
theorem verify_solution_error_order (sha256hex : String → String)
    (challengeId solution_nonce ipHash : String) (now : ℤ) :
    ((PowService.verify_solution sha256hex none challengeId solution_nonce
        ipHash now).result = .error .challengeNotFound) ∧
    (∀ ch : PowChallenge,
      (ch.is_solved = true →
        (PowService.verify_solution sha256hex (some ch) challengeId
          solution_nonce ipHash now).result = .error .challengeAlreadyUsed) ∧
      (ch.is_solved = false → ch.is_expired now = true →
        (PowService.verify_solution sha256hex (some ch) challengeId
          solution_nonce ipHash now).result = .error .challengeExpired) ∧
      (ch.is_solved = false → ch.is_expired now = false →
        ch.client_ip_hash ≠ ipHash →
        (PowService.verify_solution sha256hex (some ch) challengeId
          solution_nonce ipHash now).result = .error .ipMismatch) ∧
      (ch.client_ip_hash ≠ ipHash →
        ∀ ch' : PowChallenge,
          (PowService.verify_solution sha256hex (some ch) challengeId
            solution_nonce ipHash now).result ≠ .ok ch') ∧
      (ch.is_solved = false → ch.is_expired now = false →
        ch.client_ip_hash = ipHash →
        ((∃ ch' : PowChallenge,
            (PowService.verify_solution sha256hex (some ch) challengeId
              solution_nonce ipHash now).result = .ok ch') ↔
          strStartsWith (sha256hex (ch.challenge_nonce ++ solution_nonce))
            (powTarget ch.difficulty) = true))) := by
  refine ⟨rfl, fun ch => ⟨?_, ?_, ?_, ?_, ?_⟩⟩
  · intro h1
    simp [PowService.verify_solution, h1]
  · intro h1 h2
    simp [PowService.verify_solution, h1, h2]
  · intro h1 h2 h3
    simp [PowService.verify_solution, h1, h2, h3]
  · intro h3 ch'
    by_cases h1 : ch.is_solved
    · simp [PowService.verify_solution, h1]
    · by_cases h2 : ch.is_expired now
      · simp [PowService.verify_solution, h1, h2]
      · simp [PowService.verify_solution, h1, h2, h3]
  · intro h1 h2 h3
    by_cases h4 : strStartsWith (sha256hex (ch.challenge_nonce ++
        solution_nonce)) (powTarget ch.difficulty) = true
    · simp [PowService.verify_solution, PowChallenge.verify_solution,
        h1, h2, h3, h4]
    · simp [PowService.verify_solution, PowChallenge.verify_solution,
        h1, h2, h3, h4]

/-- C2 witness: a well-formed unsolved, unexpired challenge presented with
a non-matching IP digest fails with the IP-mismatch error even though the
supplied solution hashes correctly under the (stubbed) digest function. -/
theorem verify_solution_error_order_witness :
    verify_pow_hash (fun _ => "0abc") "cn" "sol" 1 = true ∧
    (PowService.verify_solution (fun _ => "0abc")
      (some ⟨"cid", "cn", 1, none, none, 100, 0, "srcip"⟩) "cid" "sol"
      "otherip" 5).result = .error .ipMismatch :=
  ⟨by decide,
    ((verify_solution_error_order (fun _ => "0abc") "cid" "sol" "otherip"
        5).2 ⟨"cid", "cn", 1, none, none, 100, 0, "srcip"⟩).2.2.1
      (by decide) (by decide) (by decide)⟩

/-- C3: a proof-of-work challenge is single-use.  A successful
`verify_solution` returns the challenge updated by `mark_solved` (setting
`solved_nonce` and `solved_at`), and it only succeeds on a challenge whose
`solved_nonce` is still unset — marking solved is the single mutation
point.  Once `solved_nonce` is set, every `verify_solution` call on that
challenge (any nonce, digest function, caller or time) returns the
already-used error and nothing else, so the stored `solved_nonce` is never
overwritten; in particular a replay straight after a success fails. -/
theorem verify_solution_single_use (sha256hex : String → String)
    (challengeId solution_nonce ipHash : String) (now : ℤ) :
    (∀ ch ch' : PowChallenge,
      (PowService.verify_solution sha256hex (some ch) challengeId
        solution_nonce ipHash now).result = .ok ch' →
      ch.solved_nonce = none ∧
      ch' = ch.mark_solved solution_nonce now ∧
      ch'.solved_nonce = some solution_nonce ∧ ch'.solved_at = some now) ∧
    (∀ (ch : PowChallenge) (x : String), ch.solved_nonce = some x →
      ∀ (sha2 : String → String) (n2 ip2 : String) (now2 : ℤ),
        PowService.verify_solution sha2 (some ch) challengeId n2 ip2 now2 =
          ⟨.error .challengeAlreadyUsed,
            [⟨"pow_failure", "Challenge already used", some ip2,
              [("challenge_id", challengeId)]⟩], []⟩) ∧
    (∀ ch ch' : PowChallenge,
      (PowService.verify_solution sha256hex (some ch) challengeId
        solution_nonce ipHash now).result = .ok ch' →
      ∀ (sha2 : String → String) (n2 ip2 : String) (now2 : ℤ),
        (PowService.verify_solution sha2 (some ch') challengeId n2 ip2
          now2).result = .error .challengeAlreadyUsed) := by
  have hused : ∀ (ch : PowChallenge) (x : String), ch.solved_nonce = some x →
      ∀ (sha2 : String → String) (n2 ip2 : String) (now2 : ℤ),
        PowService.verify_solution sha2 (some ch) challengeId n2 ip2 now2 =
          ⟨.error .challengeAlreadyUsed,
            [⟨"pow_failure", "Challenge already used", some ip2,
              [("challenge_id", challengeId)]⟩], []⟩ := by
    intro ch x hx sha2 n2 ip2 now2
    have h1 : ch.is_solved = true := by
      simp [PowChallenge.is_solved, hx]
    simp [PowService.verify_solution, h1]
  have hok : ∀ ch ch' : PowChallenge,
      (PowService.verify_solution sha256hex (some ch) challengeId
        solution_nonce ipHash now).result = .ok ch' →
      ch.solved_nonce = none ∧ ch' = ch.mark_solved solution_nonce now := by
    intro ch ch' h
    by_cases h1 : ch.is_solved
    · simp [PowService.verify_solution, h1] at h
    · by_cases h2 : ch.is_expired now
      · simp [PowService.verify_solution, h1, h2] at h
      · by_cases h3 : ch.client_ip_hash = ipHash
        · by_cases h4 : ch.verify_solution sha256hex solution_nonce now
          · simp [PowService.verify_solution, h1, h2, h3, h4] at h
            refine ⟨?_, h.symm⟩
            simpa [PowChallenge.is_solved, Option.not_isSome_iff_eq_none]
              using h1
          · simp [PowService.verify_solution, h1, h2, h3, h4] at h
        · simp [PowService.verify_solution, h1, h2, h3] at h
  refine ⟨?_, hused, ?_⟩
  · intro ch ch' h
    obtain ⟨hnone, hmk⟩ := hok ch ch' h
    refine ⟨hnone, hmk, ?_, ?_⟩ <;> simp [hmk, PowChallenge.mark_solved]
  · intro ch ch' h sha2 n2 ip2 now2
    obtain ⟨-, hmk⟩ := hok ch ch' h
    have : ch'.solved_nonce = some solution_nonce := by
      simp [hmk, PowChallenge.mark_solved]
    rw [hused ch' solution_nonce this sha2 n2 ip2 now2]

/-- C3 witness: a concrete challenge is solved once (under a stubbed digest
function that always yields a `"0"`-prefixed digest), and the immediate
replay with the same id fails with the already-used error. -/
theorem verify_solution_single_use_witness :
    ((PowService.verify_solution (fun _ => "0hash")
        (some ⟨"cid", "cn", 1, none, none, 100, 0, "iph"⟩) "cid" "sol" "iph"
        5).result =
      .ok (PowChallenge.mark_solved ⟨"cid", "cn", 1, none, none, 100, 0, "iph"⟩
        "sol" 5)) ∧
    ((PowService.verify_solution (fun _ => "0hash")
        (some (PowChallenge.mark_solved
          ⟨"cid", "cn", 1, none, none, 100, 0, "iph"⟩ "sol" 5)) "cid" "sol2"
        "iph" 6).result = .error .challengeAlreadyUsed) :=
  ⟨by decide,
    (verify_solution_single_use (fun _ => "0hash") "cid" "sol" "iph" 5).2.2
      ⟨"cid", "cn", 1, none, none, 100, 0, "iph"⟩ _ (by decide)
      (fun _ => "0hash") "sol2" "iph" 6⟩

/-- C8 counterexample: with exactly 10 challenges already issued for the
digest in the trailing 15-minute window — not *more than* 10 —
`create_challenge` already fails with the rate-limit error, so "fails
exactly when more than 10 challenges were issued" is false at this input. -/
theorem create_challenge_tenth_counterexample :
    PowService.countRecentChallenges
      (List.replicate 10 (⟨"cid", "cn", 4, none, none, 300, 0, "iph"⟩ :
        PowChallenge)) "iph" 100 = 10 ∧
    ¬ (10 : ℕ) > 10 ∧
    PowService.create_challenge ⟨4, 10, 2, 30⟩
      (List.replicate 10 (⟨"cid", "cn", 4, none, none, 300, 0, "iph"⟩ :
        PowChallenge)) "newid" "newnonce" "iph" false 100 =
      .error (900, 10, 900) :=
  ⟨by decide, by decide, by decide⟩

/-- C8 (amended): `create_challenge` fails with
`RateLimitError(retry_after=900, limit=10, window=900)` exactly when at
least 10 challenges for the requesting IP digest have `created_at` within
the trailing 15-minute window.  The check is the inline count in
`_check_challenge_rate_limit` over the stored challenge table — it is not
delegated to the RateLimiter and no `"pow:create"` key exists in the code.
Otherwise a fresh unsolved challenge is created whose difficulty and TTL
come from the accessibility mode. -/
theorem create_challenge_rate_limit (settings : PowService.PowSettings)
    (challenges : List PowChallenge) (newId nonce ipHash : String)
    (low_power : Bool) (now : ℤ) :
    ((∃ e, PowService.create_challenge settings challenges newId nonce ipHash
        low_power now = .error e) ↔
      10 ≤ PowService.countRecentChallenges challenges ipHash now) ∧
    (10 ≤ PowService.countRecentChallenges challenges ipHash now →
      PowService.create_challenge settings challenges newId nonce ipHash
        low_power now = .error (900, 10, 900)) ∧
    (PowService.countRecentChallenges challenges ipHash now < 10 →
      PowService.create_challenge settings challenges newId nonce ipHash
        low_power now =
        .ok ⟨newId, nonce,
          if low_power then settings.pow_low_power_difficulty
          else settings.pow_difficulty,
          none, none,
          now + (if low_power then settings.pow_low_power_timeout_seconds
            else settings.pow_timeout_seconds),
          now, ipHash⟩) := by
  by_cases h : 10 ≤ PowService.countRecentChallenges challenges ipHash now
  · refine ⟨⟨fun _ => h, fun _ => ⟨(900, 10, 900), ?_⟩⟩, fun _ => ?_, ?_⟩ <;>
      simp [PowService.create_challenge,
        PowService.check_challenge_rate_limit, h]
  · have h' : PowService.countRecentChallenges challenges ipHash now < 10 := by
      omega
    refine ⟨⟨fun ⟨e, he⟩ => ?_, fun hc => absurd hc h⟩, fun hc => absurd hc h,
      fun _ => ?_⟩
    · rcases low_power with _ | _ <;>
        simp [PowService.create_challenge,
          PowService.check_challenge_rate_limit, h] at he
    · rcases low_power with _ | _ <;>
        simp [PowService.create_challenge,
          PowService.check_challenge_rate_limit, h]

/-- C8 witness: an empty challenge table is under the threshold, so
creation succeeds and builds the expected challenge row. -/
theorem create_challenge_rate_limit_witness :
    PowService.create_challenge ⟨4, 10, 2, 30⟩ [] "newid" "nonce" "iph" false
      1000 = .ok ⟨"newid", "nonce", 4, none, none, 1010, 1000, "iph"⟩ := by
  have h := (create_challenge_rate_limit ⟨4, 10, 2, 30⟩ [] "newid" "nonce"
    "iph" false 1000).2.2 (by decide)
  simpa using h

/-- C9 counterexample: a `verify_solution` call that fails with the
not-found error returns with an *empty* list of audit-trail records, so
"every VerifySolution failure … is recorded to the audit trail" is false
at this input (a security log line is emitted, but no audit record). -/
theorem verify_failure_no_audit_counterexample :
    (PowService.verify_solution (fun _ => "deadbeef") none "cid" "sol" "iph"
      0).result = .error .challengeNotFound ∧
    (PowService.verify_solution (fun _ => "deadbeef") none "cid" "sol" "iph"
      0).auditEvents = [] :=
  ⟨rfl, rfl⟩

/-- C9 (amended): every `verify_solution` failure emits, before the error
is returned, exactly one security *log* event carrying only the hashed IP
and the challenge id; an audit-*trail* record is written only on the
invalid-solution path (a single `POW_FAILED` entry with the hashed IP and
challenge id) — the not-found, already-used, expired and IP-mismatch
failures write none.  The generic rate limiter writes a single
`RATE_LIMIT_TRIGGERED` audit record (with the hashed IP) exactly when it
rejects, while the challenge-creation rate limit emits only a security log
event and never an audit record. -/
theorem pow_failure_observability (sha256hex : String → String)
    (challengeId solution_nonce ipHash : String) (now : ℤ) :
    (∀ (challenge? : Option PowChallenge) (er : PowError),
      (PowService.verify_solution sha256hex challenge? challengeId
        solution_nonce ipHash now).result = .error er →
      ∃ msg, (PowService.verify_solution sha256hex challenge? challengeId
        solution_nonce ipHash now).securityEvents =
          [⟨"pow_failure", msg, some ipHash, [("challenge_id", challengeId)]⟩]) ∧
    (∀ (challenge? : Option PowChallenge) (er : PowError),
      (PowService.verify_solution sha256hex challenge? challengeId
        solution_nonce ipHash now).result = .error er →
      (PowService.verify_solution sha256hex challenge? challengeId
        solution_nonce ipHash now).auditEvents =
        (if er = .invalidSolution then
          [⟨.powFailed, .anonymous, some ipHash,
            [("challenge_id", challengeId)]⟩]
        else [])) ∧
    (∀ (K W : ℤ) (ih ep : String) (e? : Option RateLimitEntry) (n r l w : ℤ),
      (check_rate_limit true K W ih ep e? n).result = .rateLimited r l w →
      (check_rate_limit true K W ih ep e? n).auditEvents.length = 1 ∧
      ∀ ev ∈ (check_rate_limit true K W ih ep e? n).auditEvents,
        ev.action = .rateLimitTriggered ∧ ev.ipHash = some ih) ∧
    (∀ (K W : ℤ) (ih ep : String) (e? : Option RateLimitEntry) (n : ℤ),
      (check_rate_limit true K W ih ep e? n).result.isOk = true →
      (check_rate_limit true K W ih ep e? n).auditEvents = []) ∧
    (∀ (challenges : List PowChallenge) (ih : String) (n : ℤ) (e : ℤ × ℤ × ℤ),
      (PowService.check_challenge_rate_limit challenges ih n).1 = .error e →
      (PowService.check_challenge_rate_limit challenges ih n).2.2 = [] ∧
      (PowService.check_challenge_rate_limit challenges ih n).2.1 ≠ []) := by
  have hverify : ∀ (challenge? : Option PowChallenge) (er : PowError),
      (PowService.verify_solution sha256hex challenge? challengeId
        solution_nonce ipHash now).result = .error er →
      (∃ msg, (PowService.verify_solution sha256hex challenge? challengeId
        solution_nonce ipHash now).securityEvents =
          [⟨"pow_failure", msg, some ipHash, [("challenge_id", challengeId)]⟩]) ∧
      (PowService.verify_solution sha256hex challenge? challengeId
        solution_nonce ipHash now).auditEvents =
        (if er = .invalidSolution then
          [⟨.powFailed, .anonymous, some ipHash,
            [("challenge_id", challengeId)]⟩]
        else []) := by
    intro challenge? er h
    rcases challenge? with _ | ch
    · simp only [PowService.verify_solution] at h
      simp only [Except.error.injEq] at h
      subst h
      exact ⟨⟨"Challenge not found", rfl⟩, rfl⟩
    · by_cases h1 : ch.is_solved
      · have hout : PowService.verify_solution sha256hex (some ch) challengeId
            solution_nonce ipHash now =
            ⟨.error .challengeAlreadyUsed,
              [⟨"pow_failure", "Challenge already used", some ipHash,
                [("challenge_id", challengeId)]⟩], []⟩ := by
          simp [PowService.verify_solution, h1]
        rw [hout] at h ⊢
        simp only [Except.error.injEq] at h
        subst h
        exact ⟨⟨"Challenge already used", rfl⟩, rfl⟩
      · by_cases h2 : ch.is_expired now
        · have hout : PowService.verify_solution sha256hex (some ch)
              challengeId solution_nonce ipHash now =
              ⟨.error .challengeExpired,
                [⟨"pow_failure", "Challenge expired", some ipHash,
                  [("challenge_id", challengeId)]⟩], []⟩ := by
            simp [PowService.verify_solution, h1, h2]
          rw [hout] at h ⊢
          simp only [Except.error.injEq] at h
          subst h
          exact ⟨⟨"Challenge expired", rfl⟩, rfl⟩
        · by_cases h3 : ch.client_ip_hash = ipHash
          · by_cases h4 : ch.verify_solution sha256hex solution_nonce now
            · have hout : PowService.verify_solution sha256hex (some ch)
                  challengeId solution_nonce ipHash now =
                  ⟨.ok (ch.mark_solved solution_nonce now), [], []⟩ := by
                simp [PowService.verify_solution, h1, h2, h3, h4]
              rw [hout] at h
              simp at h
            · have hout : PowService.verify_solution sha256hex (some ch)
                  challengeId solution_nonce ipHash now =
                  ⟨.error .invalidSolution,
                    [⟨"pow_failure", "Invalid solution", some ipHash,
                      [("challenge_id", challengeId)]⟩],
                    [⟨.powFailed, .anonymous, some ipHash,
                      [("challenge_id", challengeId)]⟩]⟩ := by
                simp [PowService.verify_solution, h1, h2, h3, h4]
              rw [hout] at h ⊢
              simp only [Except.error.injEq] at h
              subst h
              exact ⟨⟨"Invalid solution", rfl⟩, rfl⟩
          · have hout : PowService.verify_solution sha256hex (some ch)
                challengeId solution_nonce ipHash now =
                ⟨.error .ipMismatch,
                  [⟨"pow_failure", "IP mismatch", some ipHash,
                    [("challenge_id", challengeId)]⟩], []⟩ := by
              simp [PowService.verify_solution, h1, h2, h3]
            rw [hout] at h ⊢
            simp only [Except.error.injEq] at h
            subst h
            exact ⟨⟨"IP mismatch", rfl⟩, rfl⟩
  refine ⟨fun c? er h => (hverify c? er h).1,
    fun c? er h => (hverify c? er h).2, ?_, ?_, ?_⟩
  · intro K W ih ep e? n r l w h
    rcases e? with _ | e
    · by_cases c1 : (1 : ℤ) > K
      · simp [check_rate_limit, c1]
      · simp [check_rate_limit, c1] at h
    · by_cases c1 : e.is_window_expired n
      · by_cases c2 : (1 : ℤ) > K
        · simp [check_rate_limit, c1, c2]
        · simp [check_rate_limit, c1, c2] at h
      · by_cases c2 : e.request_count + 1 > K
        · simp [check_rate_limit, c1, c2]
        · simp [check_rate_limit, c1, c2] at h
  · intro K W ih ep e? n h
    rcases e? with _ | e
    · by_cases c1 : (1 : ℤ) > K
      · simp [check_rate_limit, c1, RateLimitResult.isOk] at h
      · simp [check_rate_limit, c1]
    · by_cases c1 : e.is_window_expired n
      · by_cases c2 : (1 : ℤ) > K
        · simp [check_rate_limit, c1, c2, RateLimitResult.isOk] at h
        · simp [check_rate_limit, c1, c2]
      · by_cases c2 : e.request_count + 1 > K
        · simp [check_rate_limit, c1, c2, RateLimitResult.isOk] at h
        · simp [check_rate_limit, c1, c2]
  · intro challenges ih n e h
    by_cases hc : 10 ≤ PowService.countRecentChallenges challenges ih n
    · simp [PowService.check_challenge_rate_limit, hc]
    · simp [PowService.check_challenge_rate_limit, hc] at h

/-- C9 witness: a concrete invalid-solution failure carries exactly one
audit record and one security event, both holding only the hashed IP and
the challenge id. -/
theorem pow_failure_observability_witness :
    (PowService.verify_solution (fun _ => "ffff")
      (some ⟨"cid", "cn", 1, none, none, 100, 0, "iph"⟩) "cid" "sol" "iph"
      5).auditEvents =
      [⟨.powFailed, .anonymous, some "iph", [("challenge_id", "cid")]⟩] :=
  ((pow_failure_observability (fun _ => "ffff") "cid" "sol" "iph" 5).2.1
    (some ⟨"cid", "cn", 1, none, none, 100, 0, "iph"⟩) .invalidSolution
    (by decide)).trans (by decide)

/-! ### Game round lemmas -/

/-- The strict-greater update of `record_guess` is exactly a `max`. -/
lemma record_guess_fields (r : GameRound) (a l : ℤ) (ag : Option String)
    (lat lon : Option ℚ) :
    (r.record_guess a l ag lat lon).aircraft_score = max r.aircraft_score a ∧
    (r.record_guess a l ag lat lon).location_score = max r.location_score l ∧
    (r.record_guess a l ag lat lon).final_score =
      max r.aircraft_score a + max r.location_score l ∧
    (r.record_guess a l ag lat lon).guesses_made = r.guesses_made + 1 := by
  by_cases h1 : a > r.aircraft_score <;> by_cases h2 : l > r.location_score
  · simp [GameRound.record_guess, h1, h2, max_eq_right h1.le,
      max_eq_right h2.le]
  · simp [GameRound.record_guess, h1, h2, max_eq_right h1.le,
      max_eq_left (le_of_not_gt h2)]
  · simp [GameRound.record_guess, h1, h2, max_eq_left (le_of_not_gt h1),
      max_eq_right h2.le]
  · simp [GameRound.record_guess, h1, h2, max_eq_left (le_of_not_gt h1),
      max_eq_left (le_of_not_gt h2)]

/-- `record_guess` preserves the `final_score = aircraft + location`
invariant, and keeps it after any further guesses. -/
lemma recordAll_final : ∀ (gs : List GuessInput) (r : GameRound),
    r.final_score = r.aircraft_score + r.location_score →
    (recordAll r gs).final_score =
      (recordAll r gs).aircraft_score + (recordAll r gs).location_score
  | [], r, hinv => by simpa [recordAll] using hinv
  | g :: gs, r, hinv => by
    have hstep := record_guess_fields r g.aircraft_score g.location_score
      g.aircraft_guess g.location_lat g.location_lon
    have hrest := recordAll_final gs (r.record_guess g.aircraft_score
      g.location_score g.aircraft_guess g.location_lat g.location_lon)
      (by rw [hstep.2.2.1, hstep.1, hstep.2.1])
    simpa [recordAll] using hrest

/-- The two best sub-scores after a fold of `record_guess` are running
maxima of the recorded scores. -/
lemma recordAll_scores : ∀ (gs : List GuessInput) (r : GameRound),
    (recordAll r gs).aircraft_score =
      gs.foldl (fun m g => max m g.aircraft_score) r.aircraft_score ∧
    (recordAll r gs).location_score =
      gs.foldl (fun m g => max m g.location_score) r.location_score ∧
    (recordAll r gs).guesses_made = r.guesses_made + gs.length
  | [], r => by simp [recordAll]
  | g :: gs, r => by
    have hstep := record_guess_fields r g.aircraft_score g.location_score
      g.aircraft_guess g.location_lat g.location_lon
    have hrest := recordAll_scores gs (r.record_guess g.aircraft_score
      g.location_score g.aircraft_guess g.location_lat g.location_lon)
    simp only [recordAll, List.foldl_cons] at hrest ⊢
    refine ⟨?_, ?_, ?_⟩
    · rw [hrest.1, hstep.1]
    · rw [hrest.2.1, hstep.2.1]
    · rw [hrest.2.2, hstep.2.2.2, List.length_cons]
      omega

/-! ### Claim theorems: game rounds and scoring -/

/-- C4: `final_score` always equals `aircraft_score + location_score`,
where each is the best-ever (running-maximum) sub-score over all guesses
recorded in the round starting from 0, so `final_score` is monotonically
non-decreasing as guesses are recorded; a recorded guess updates a
sub-score and its associated best-guess value only when the new score is
strictly greater than the current best, otherwise both are retained; and
the guesses (aircraft 300, location 100) followed by (aircraft 200,
location 900) yield `final_score` 1200. -/
theorem record_guess_best_scores :
    (∀ (r : GameRound) (a l : ℤ) (ag : Option String) (lat lon : Option ℚ),
      (r.record_guess a l ag lat lon).final_score =
        max r.aircraft_score a + max r.location_score l ∧
      (r.record_guess a l ag lat lon).aircraft_score = max r.aircraft_score a ∧
      (r.record_guess a l ag lat lon).location_score = max r.location_score l) ∧
    (∀ (r : GameRound) (a l : ℤ) (ag : Option String) (lat lon : Option ℚ),
      (¬ a > r.aircraft_score →
        (r.record_guess a l ag lat lon).aircraft_score = r.aircraft_score ∧
        (r.record_guess a l ag lat lon).best_aircraft_guess =
          r.best_aircraft_guess) ∧
      (¬ l > r.location_score →
        (r.record_guess a l ag lat lon).location_score = r.location_score ∧
        (r.record_guess a l ag lat lon).best_location_lat =
          r.best_location_lat ∧
        (r.record_guess a l ag lat lon).best_location_lon =
          r.best_location_lon) ∧
      (a > r.aircraft_score → strTruthy ag = true →
        (r.record_guess a l ag lat lon).best_aircraft_guess = ag)) ∧
    (∀ (gs : List GuessInput) (p : ℕ) (now dur : ℤ) (mg : ℕ),
      (recordAll (GameRound.create p now dur mg) gs).aircraft_score =
        gs.foldl (fun m g => max m g.aircraft_score) 0 ∧
      (recordAll (GameRound.create p now dur mg) gs).location_score =
        gs.foldl (fun m g => max m g.location_score) 0 ∧
      (recordAll (GameRound.create p now dur mg) gs).final_score =
        gs.foldl (fun m g => max m g.aircraft_score) 0 +
          gs.foldl (fun m g => max m g.location_score) 0) ∧
    (∀ (gs : List GuessInput) (g : GuessInput) (p : ℕ) (now dur : ℤ) (mg : ℕ),
      (recordAll (GameRound.create p now dur mg) gs).final_score ≤
        (recordAll (GameRound.create p now dur mg) (gs ++ [g])).final_score) ∧
    ((recordAll (GameRound.create 1 0 120 5)
      [⟨300, 100, none, none, none⟩, ⟨200, 900, none, none, none⟩]).final_score
      = 1200) := by
  have hcreate_inv : ∀ (p : ℕ) (now dur : ℤ) (mg : ℕ),
      (GameRound.create p now dur mg).final_score =
        (GameRound.create p now dur mg).aircraft_score +
          (GameRound.create p now dur mg).location_score := by
    intro p now dur mg
    simp [GameRound.create]
  refine ⟨?_, ?_, ?_, ?_, by decide⟩
  · intro r a l ag lat lon
    have h := record_guess_fields r a l ag lat lon
    exact ⟨h.2.2.1, h.1, h.2.1⟩
  · intro r a l ag lat lon
    refine ⟨?_, ?_, ?_⟩
    · intro h1
      by_cases h2 : l > r.location_score <;>
        simp [GameRound.record_guess, h1, h2]
    · intro h2
      by_cases h1 : a > r.aircraft_score <;>
        simp [GameRound.record_guess, h1, h2]
    · intro h1 hag
      by_cases h2 : l > r.location_score <;>
        simp [GameRound.record_guess, h1, h2, hag]
  · intro gs p now dur mg
    have h := recordAll_scores gs (GameRound.create p now dur mg)
    have hfin := recordAll_final gs (GameRound.create p now dur mg)
      (hcreate_inv p now dur mg)
    have h0a : (GameRound.create p now dur mg).aircraft_score = 0 := rfl
    have h0l : (GameRound.create p now dur mg).location_score = 0 := rfl
    rw [h0a, h0l] at h
    exact ⟨h.1, h.2.1, by rw [hfin, h.1, h.2.1]⟩
  · intro gs g p now dur mg
    have hfin := recordAll_final gs (GameRound.create p now dur mg)
      (hcreate_inv p now dur mg)
    have hstep := record_guess_fields (recordAll (GameRound.create p now dur mg)
      gs) g.aircraft_score g.location_score g.aircraft_guess g.location_lat
      g.location_lon
    have happ : recordAll (GameRound.create p now dur mg) (gs ++ [g]) =
        (recordAll (GameRound.create p now dur mg) gs).record_guess
          g.aircraft_score g.location_score g.aircraft_guess g.location_lat
          g.location_lon := by
      simp [recordAll]
    rw [happ, hstep.2.2.1, hfin]
    exact add_le_add (le_max_left _ _) (le_max_left _ _)

/-- C4 witness: a guess whose aircraft score does not beat the current
best leaves both the best score and the stored best guess unchanged. -/
theorem record_guess_best_scores_witness :
    ((⟨1, .active, 0, 120, none, 1, 5, 500, 400, 100, some "A320", none,
        none⟩ : GameRound).record_guess 300 50 (some "B747") none
        none).best_aircraft_guess = some "A320" :=
  ((record_guess_best_scores.2.1 ⟨1, .active, 0, 120, none, 1, 5, 500, 400,
    100, some "A320", none, none⟩ 300 50 (some "B747") none none).1
    (by decide)).2

/-- C6 counterexample: a round that is already Completed and whose
`expires_at` has passed.  The claim, as stated, requires the call to fail
with `RoundExpired` whenever `now > expires_at`; the code checks the
status first and fails with `RoundNotActive` instead. -/
theorem submit_guess_expiry_order_counterexample :
    ((20 : ℤ) > (10 : ℤ)) ∧
    (submit_guess (some ⟨7, .completed, 0, 10, none, 0, 5, 0, 0, 0, none,
      none, none⟩) 7 20 0 0 none none none).1 = .error .roundNotActive ∧
    (submit_guess (some ⟨7, .completed, 0, 10, none, 0, 5, 0, 0, 0, none,
      none, none⟩) 7 20 0 0 none none none).1 ≠ .error .roundExpired :=
  ⟨by decide, by decide, by decide⟩

/-- C6 (amended): for a round owned by the caller, `submit_guess` checks
the status before expiry: a non-Active round fails `RoundNotActive` with no
transition; an Active round past `expires_at` fails `RoundExpired` after
transitioning to Completed; an Active, unexpired round with
`guesses_made ≥ max_guesses` fails `RoundNotActive` after transitioning to
Completed.  Hence submitting beyond `max_guesses` on an unexpired Active
round always fails `RoundNotActive`, and no failing call ever records a
guess (`guesses_made` is unchanged on every error path), so a terminal
round never records a new guess. -/
theorem submit_guess_check_order (r : GameRound) (player_id : ℕ) (now : ℤ)
    (a l : ℤ) (ag : Option String) (lat lon : Option ℚ)
    (hown : r.player_id = player_id) :
    (r.status ≠ .active →
      submit_guess (some r) player_id now a l ag lat lon =
        (.error .roundNotActive, some r)) ∧
    (r.status = .active → r.expires_at < now →
      submit_guess (some r) player_id now a l ag lat lon =
        (.error .roundExpired,
          some { r with status := .completed, completed_at := some now })) ∧
    (r.status = .active → now ≤ r.expires_at →
      r.max_guesses ≤ r.guesses_made →
      submit_guess (some r) player_id now a l ag lat lon =
        (.error .roundNotActive, some (r.complete now))) ∧
    (∀ (er : SubmitGuessError) (rd : Option GameRound),
      submit_guess (some r) player_id now a l ag lat lon = (.error er, rd) →
      ∀ r2, rd = some r2 → r2.guesses_made = r.guesses_made) := by
  refine ⟨?_, ?_, ?_, ?_⟩
  · intro h1
    simp [submit_guess, hown, h1]
  · intro h1 h2
    have h2' : now > r.expires_at := h2
    simp [submit_guess, hown, h1, h2']
  · intro h1 h2 h3
    have h2' : ¬ now > r.expires_at := by omega
    simp [submit_guess, hown, h1, h2', h3]
  · intro er rd h r2 hrd
    by_cases h1 : r.status = RoundStatus.active
    · by_cases h2 : now > r.expires_at
      · simp [submit_guess, hown, h1, h2] at h
        rw [← h.2] at hrd
        simp at hrd
        rw [← hrd]
      · by_cases h3 : r.guesses_made ≥ r.max_guesses
        · simp [submit_guess, hown, h1, h2, h3] at h
          rw [← h.2] at hrd
          simp at hrd
          rw [← hrd]
          simp [GameRound.complete]
        · simp [submit_guess, hown, h1, h2, h3] at h
    · simp [submit_guess, hown, h1] at h
      rw [← h.2] at hrd
      simp at hrd
      rw [← hrd]

/-- C6 witness: an Active round with its guess budget exhausted fails
`RoundNotActive` (transitioning to Completed first), and an Active round
past its deadline fails `RoundExpired`. -/
theorem submit_guess_check_order_witness :
    (submit_guess (some ⟨3, .active, 0, 100, none, 5, 5, 0, 0, 0, none, none,
        none⟩) 3 50 0 0 none none none =
      (.error .roundNotActive,
        some (GameRound.complete ⟨3, .active, 0, 100, none, 5, 5, 0, 0, 0,
          none, none, none⟩ 50))) ∧
    (submit_guess (some ⟨3, .active, 0, 10, none, 0, 5, 0, 0, 0, none, none,
        none⟩) 3 20 0 0 none none none =
      (.error .roundExpired,
        some { (⟨3, .active, 0, 10, none, 0, 5, 0, 0, 0, none, none, none⟩ :
          GameRound) with status := .completed, completed_at := some 20 })) :=
  ⟨(submit_guess_check_order ⟨3, .active, 0, 100, none, 5, 5, 0, 0, 0, none,
      none, none⟩ 3 50 0 0 none none none (by decide)).2.2.1 (by decide)
      (by decide) (by decide),
    (submit_guess_check_order ⟨3, .active, 0, 10, none, 0, 5, 0, 0, 0, none,
      none, none⟩ 3 20 0 0 none none none (by decide)).2.1 (by decide)
      (by decide)⟩

/-! ### Scoring lemmas -/

/-- `scoreFromDistance` with the named constants unfolded, as claim C7
words the formula. -/
lemma scoreFromDistance_eq (d : ℚ) : scoreFromDistance d =
    if d ≤ 50 then 1000
    else if 5000 ≤ d then 0
    else ⌊(1000 : ℚ) * (1 - (d - 50) / (5000 - 50))⌋ := by
  simp [scoreFromDistance, PERFECT_DISTANCE_KM, ZERO_SCORE_DISTANCE_KM,
    MAX_LOCATION_SCORE, ge_iff_le]

/-- The location score never exceeds 1000. -/
lemma scoreFromDistance_le (d : ℚ) : scoreFromDistance d ≤ 1000 := by
  rw [scoreFromDistance_eq]
  by_cases h1 : d ≤ 50
  · rw [if_pos h1]
  · rw [if_neg h1]
    by_cases h2 : 5000 ≤ d
    · rw [if_pos h2]; norm_num
    · rw [if_neg h2]
      have hle : (1000 : ℚ) * (1 - (d - 50) / (5000 - 50)) ≤ 1000 := by
        have hd : 0 ≤ (d - 50) / (5000 - 50) := by
          apply div_nonneg <;> linarith
        nlinarith
      calc ⌊(1000 : ℚ) * (1 - (d - 50) / (5000 - 50))⌋
          ≤ ⌊(1000 : ℚ)⌋ := Int.floor_mono hle
        _ = 1000 := by norm_num

/-- The location score is never negative. -/
lemma scoreFromDistance_nonneg (d : ℚ) : 0 ≤ scoreFromDistance d := by
  rw [scoreFromDistance_eq]
  by_cases h1 : d ≤ 50
  · rw [if_pos h1]; norm_num
  · rw [if_neg h1]
    by_cases h2 : 5000 ≤ d
    · rw [if_pos h2]
    · rw [if_neg h2]
      apply Int.le_floor.mpr
      push_cast
      have hle : (d - 50) / (5000 - 50) ≤ 1 := by
        rw [div_le_one (by norm_num)]
        linarith
      nlinarith

/-- The location score is monotonically non-increasing in distance. -/
lemma scoreFromDistance_mono (d1 d2 : ℚ) (h : d1 ≤ d2) :
    scoreFromDistance d2 ≤ scoreFromDistance d1 := by
  by_cases h1 : d1 ≤ 50
  · calc scoreFromDistance d2 ≤ 1000 := scoreFromDistance_le d2
      _ = scoreFromDistance d1 := by rw [scoreFromDistance_eq, if_pos h1]
  · by_cases h4 : 5000 ≤ d1
    · have h5 : 5000 ≤ d2 := le_trans h4 h
      rw [scoreFromDistance_eq d1, if_neg h1, if_pos h4]
      rw [scoreFromDistance_eq d2, if_neg (by linarith), if_pos h5]
    · by_cases h3 : 5000 ≤ d2
      · calc scoreFromDistance d2 = 0 := by
              rw [scoreFromDistance_eq, if_neg (by linarith), if_pos h3]
          _ ≤ scoreFromDistance d1 := scoreFromDistance_nonneg d1
      · rw [scoreFromDistance_eq d1, if_neg h1, if_neg h4]
        rw [scoreFromDistance_eq d2, if_neg (by linarith), if_neg h3]
        apply Int.floor_mono
        have hdiv : (d1 - 50) / (5000 - 50) ≤ (d2 - 50) / (5000 - 50) := by
          apply div_le_div_of_nonneg_right ?_ (by norm_num)
          · linarith
        nlinarith

/-- Evaluate `roundHalfEven` when the fraction is below one half. -/
lemma roundHalfEven_eq_down (x : ℚ) (n : ℤ) (h1 : (n : ℚ) ≤ x)
    (h2 : x < (n : ℚ) + 1 / 2) : roundHalfEven x = n := by
  have hfl : ⌊x⌋ = n := Int.floor_eq_iff.mpr ⟨h1, by linarith⟩
  simp only [roundHalfEven, hfl]
  rw [if_pos (by linarith)]

/-- Evaluate `roundHalfEven` when the fraction is above one half. -/
lemma roundHalfEven_eq_up (x : ℚ) (n : ℤ) (h1 : (n : ℚ) + 1 / 2 < x)
    (h2 : x < (n : ℚ) + 1) : roundHalfEven x = n + 1 := by
  have hfl : ⌊x⌋ = n := Int.floor_eq_iff.mpr ⟨by linarith, by linarith⟩
  simp only [roundHalfEven, hfl]
  rw [if_neg (by linarith), if_pos (by linarith)]

/-- Pin down `Int.log 2` of a positive rational from its binade. -/
lemma Int_log2_eq (q : ℚ) (k : ℤ) (hq : 0 < q)
    (h1 : (2 : ℚ) ^ k ≤ q) (h2 : q < 2 ^ (k + 1)) : Int.log 2 q = k := by
  have ha : k ≤ Int.log 2 q := by
    rw [← Int.zpow_le_iff_le_log (by norm_num) hq]
    exact_mod_cast h1
  have hb : Int.log 2 q < k + 1 := by
    rw [← Int.lt_zpow_iff_log_lt (by norm_num) hq]
    exact_mod_cast h2
  omega

/-- Evaluate `fl64` at a positive rational from its binade and rounded
mantissa. -/
lemma fl64_eval (q : ℚ) (k m : ℤ) (hq : 0 < q)
    (hlog : Int.log 2 q = k)
    (hr : roundHalfEven (q / 2 ^ (k - 52)) = m) :
    fl64 q = (m : ℚ) * 2 ^ (k - 52) := by
  have hq0 : q ≠ 0 := ne_of_gt hq
  simp only [fl64, if_neg hq0, abs_of_pos hq, hlog, hr]

/-- `fl(2/5)`: the double nearest `0.4` (mantissa rounds up). -/
lemma fl64_cex_div :
    fl64 (2 / 5) = 3602879701896397 / 9007199254740992 := by
  have hr : roundHalfEven ((2 / 5 : ℚ) / 2 ^ ((-2 : ℤ) - 52)) =
      7205759403792794 := by
    rw [show ((2 : ℚ) / 5) / 2 ^ ((-2 : ℤ) - 52) = 36028797018963968 / 5
      from by norm_num]
    exact (roundHalfEven_eq_up _ 7205759403792793 (by norm_num)
      (by norm_num)).trans (by norm_num)
  rw [fl64_eval (2 / 5) (-2) 7205759403792794 (by norm_num)
    (Int_log2_eq _ (-2) (by norm_num) (by norm_num) (by norm_num)) hr]
  norm_num

/-- `fl(1 − fl(2/5))`: the exact difference is already a double
(53-bit numerator in the `[1/2, 1)` binade), so rounding is the identity;
its value is the double `0.6000…` CPython prints as `0.6`. -/
lemma fl64_cex_sim :
    fl64 (5404319552844595 / 9007199254740992) =
      5404319552844595 / 9007199254740992 := by
  have hr : roundHalfEven (((5404319552844595 : ℚ) / 9007199254740992) /
      2 ^ ((-1 : ℤ) - 52)) = 5404319552844595 := by
    rw [show ((5404319552844595 : ℚ) / 9007199254740992) /
        2 ^ ((-1 : ℤ) - 52) = 5404319552844595 from by norm_num]
    exact roundHalfEven_eq_down _ 5404319552844595 (by norm_num) (by norm_num)
  rw [fl64_eval _ (-1) 5404319552844595 (by norm_num)
    (Int_log2_eq _ (-1) (by norm_num) (by norm_num) (by norm_num)) hr]
  norm_num

/-- The literal `0.6`: `fl(6/10)` (mantissa rounds down). -/
lemma fl64_six_tenths :
    fl64 (6 / 10) = 5404319552844595 / 9007199254740992 := by
  have hr : roundHalfEven ((6 / 10 : ℚ) / 2 ^ ((-1 : ℤ) - 52)) =
      5404319552844595 := by
    rw [show ((6 : ℚ) / 10) / 2 ^ ((-1 : ℤ) - 52) = 27021597764222976 / 5
      from by norm_num]
    exact roundHalfEven_eq_down _ 5404319552844595 (by norm_num) (by norm_num)
  rw [fl64_eval _ (-1) 5404319552844595 (by norm_num)
    (Int_log2_eq _ (-1) (by norm_num) (by norm_num) (by norm_num)) hr]
  norm_num

/-- `fl(similarity − 1/2)`: exact (the difference fits in 53 bits in the
`[1/16, 1/8)` binade); the double `0.09999999999999998`. -/
lemma fl64_cex_sub :
    fl64 (900719925474099 / 9007199254740992) =
      900719925474099 / 9007199254740992 := by
  have hr : roundHalfEven (((900719925474099 : ℚ) / 9007199254740992) /
      2 ^ ((-4 : ℤ) - 52)) = 7205759403792792 := by
    rw [show ((900719925474099 : ℚ) / 9007199254740992) /
        2 ^ ((-4 : ℤ) - 52) = 7205759403792792 from by norm_num]
    exact roundHalfEven_eq_down _ 7205759403792792 (by norm_num) (by norm_num)
  rw [fl64_eval _ (-4) 7205759403792792 (by norm_num)
    (Int_log2_eq _ (-4) (by norm_num) (by norm_num) (by norm_num)) hr]
  norm_num

/-- `fl(1000 · 0.09999999999999998)`: rounds down to the double
`99.99999999999997`. -/
lemma fl64_cex_mul1000 :
    fl64 (112589990684262375 / 1125899906842624) =
      3518437208883199 / 35184372088832 := by
  have hr : roundHalfEven (((112589990684262375 : ℚ) / 1125899906842624) /
      2 ^ ((6 : ℤ) - 52)) = 7036874417766398 := by
    rw [show ((112589990684262375 : ℚ) / 1125899906842624) /
        2 ^ ((6 : ℤ) - 52) = 112589990684262375 / 16 from by norm_num]
    exact roundHalfEven_eq_down _ 7036874417766398 (by norm_num) (by norm_num)
  rw [fl64_eval _ 6 7036874417766398 (by norm_num)
    (Int_log2_eq _ 6 (by norm_num) (by norm_num) (by norm_num)) hr]
  norm_num

/-- `fl(· × 2)`: exact scaling; the double `199.99999999999994`. -/
lemma fl64_cex_double :
    fl64 (3518437208883199 / 17592186044416) =
      3518437208883199 / 17592186044416 := by
  have hr : roundHalfEven (((3518437208883199 : ℚ) / 17592186044416) /
      2 ^ ((7 : ℤ) - 52)) = 7036874417766398 := by
    rw [show ((3518437208883199 : ℚ) / 17592186044416) /
        2 ^ ((7 : ℤ) - 52) = 7036874417766398 from by norm_num]
    exact roundHalfEven_eq_down _ 7036874417766398 (by norm_num) (by norm_num)
  rw [fl64_eval _ 7 7036874417766398 (by norm_num)
    (Int_log2_eq _ 7 (by norm_num) (by norm_num) (by norm_num)) hr]
  norm_num

/-- `fl(199.99999999999994 × 0.6)`: rounds down to the double
`119.99999999999996`, strictly below 120. -/
lemma fl64_cex_prod :
    fl64 (19014759003423434914443553459405 / 158456325028528675187087900672) =
      8444249301319677 / 70368744177664 := by
  have hr : roundHalfEven (((19014759003423434914443553459405 : ℚ) /
      158456325028528675187087900672) / 2 ^ ((6 : ℤ) - 52)) =
      8444249301319677 := by
    rw [show ((19014759003423434914443553459405 : ℚ) /
        158456325028528675187087900672) / 2 ^ ((6 : ℤ) - 52) =
        19014759003423434914443553459405 / 2251799813685248 from by norm_num]
    exact roundHalfEven_eq_down _ 8444249301319677 (by norm_num) (by norm_num)
  rw [fl64_eval _ 6 8444249301319677 (by norm_num)
    (Int_log2_eq _ 6 (by norm_num) (by norm_num) (by norm_num)) hr]
  norm_num

/-- `fl(6/14)`: the double nearest `3/7` (mantissa rounds down). -/
lemma fl64_sub_ratio :
    fl64 (3 / 7) = 7720456504063707 / 18014398509481984 := by
  have hr : roundHalfEven ((3 / 7 : ℚ) / 2 ^ ((-2 : ℤ) - 52)) =
      7720456504063707 := by
    rw [show ((3 : ℚ) / 7) / 2 ^ ((-2 : ℤ) - 52) = 54043195528445952 / 7
      from by norm_num]
    exact roundHalfEven_eq_down _ 7720456504063707 (by norm_num) (by norm_num)
  rw [fl64_eval _ (-2) 7720456504063707 (by norm_num)
    (Int_log2_eq _ (-2) (by norm_num) (by norm_num) (by norm_num)) hr]
  norm_num

/-- `fl(1000 · fl(6/14))`: rounds up to the double `428.57142857142856`. -/
lemma fl64_sub_mul1000 :
    fl64 (965057063007963375 / 2251799813685248) =
      3769754152374857 / 8796093022208 := by
  have hr : roundHalfEven (((965057063007963375 : ℚ) / 2251799813685248) /
      2 ^ ((8 : ℤ) - 52)) = 7539508304749714 := by
    rw [show ((965057063007963375 : ℚ) / 2251799813685248) /
        2 ^ ((8 : ℤ) - 52) = 965057063007963375 / 128 from by norm_num]
    exact (roundHalfEven_eq_up _ 7539508304749713 (by norm_num)
      (by norm_num)).trans (by norm_num)
  rw [fl64_eval _ 8 7539508304749714 (by norm_num)
    (Int_log2_eq _ 8 (by norm_num) (by norm_num) (by norm_num)) hr]
  norm_num

/-- The literal `0.8`: `fl(8/10)` (mantissa rounds up). -/
lemma fl64_eight_tenths :
    fl64 (8 / 10) = 3602879701896397 / 4503599627370496 := by
  have hr : roundHalfEven ((8 / 10 : ℚ) / 2 ^ ((-1 : ℤ) - 52)) =
      7205759403792794 := by
    rw [show ((8 : ℚ) / 10) / 2 ^ ((-1 : ℤ) - 52) = 36028797018963968 / 5
      from by norm_num]
    exact (roundHalfEven_eq_up _ 7205759403792793 (by norm_num)
      (by norm_num)).trans (by norm_num)
  rw [fl64_eval _ (-1) 7205759403792794 (by norm_num)
    (Int_log2_eq _ (-1) (by norm_num) (by norm_num) (by norm_num)) hr]
  norm_num

/-- `fl(428.57142857142856 × 0.8)`: rounds up to the double
`342.8571428571429`. -/
lemma fl64_sub_prod :
    fl64 (13581970716731029541004121690229 / 39614081257132168796771975168) =
      1507901660949943 / 4398046511104 := by
  have hr : roundHalfEven (((13581970716731029541004121690229 : ℚ) /
      39614081257132168796771975168) / 2 ^ ((8 : ℤ) - 52)) =
      6031606643799772 := by
    rw [show ((13581970716731029541004121690229 : ℚ) /
        39614081257132168796771975168) / 2 ^ ((8 : ℤ) - 52) =
        13581970716731029541004121690229 / 2251799813685248 from by norm_num]
    exact (roundHalfEven_eq_up _ 6031606643799771 (by norm_num)
      (by norm_num)).trans (by norm_num)
  rw [fl64_eval _ 8 6031606643799772 (by norm_num)
    (Int_log2_eq _ 8 (by norm_num) (by norm_num) (by norm_num)) hr]
  norm_num

/-- The source scorer agrees everywhere with the amended claim's binary64
formula (the only textual difference is the source's unreachable
`max_len == 0` guard, which is dead because equal normalizations take the
exact-match branch). -/
lemma score_aircraft_guess_eq_claimFP (guess truth : String) :
    score_aircraft_guess guess truth = aircraftScoreClaimFP guess truth := by
  by_cases h1 : normalize guess = normalize truth
  · simp [score_aircraft_guess, aircraftScoreClaimFP, h1]
  · by_cases h2 : (containsSub (normalize guess) (normalize truth) ||
        containsSub (normalize truth) (normalize guess)) = true
    · simp [score_aircraft_guess, aircraftScoreClaimFP, MAX_AIRCRAFT_SCORE,
        h1, h2]
    · have h0 : ¬ (max (normalize guess).length (normalize truth).length = 0)
          := by
        intro h0
        rw [Nat.max_eq_zero_iff] at h0
        exact h1 ((List.length_eq_zero.mp h0.1).trans
          (List.length_eq_zero.mp h0.2).symm)
      simp [score_aircraft_guess, aircraftScoreClaimFP, MAX_AIRCRAFT_SCORE,
        h1, h2, h0]

/-- C5 counterexample: at guess `"abcde"`, truth `"abcxy"` (no containment,
Levenshtein distance 2, `max_len` 5), the claim's exact-arithmetic formula
gives `floor(1000 * ((1 - 2/5) - 0.5) * 2 * 0.6) = 120`, but the program
evaluates that expression in binary64, where the product rounds to
`119.99999999999996`, and `int()` truncates it to 119. -/
theorem score_aircraft_float_counterexample :
    aircraftScoreClaim "abcde" "abcxy" = 120 ∧
    score_aircraft_guess "abcde" "abcxy" = 119 ∧
    score_aircraft_guess "abcde" "abcxy" ≠
      aircraftScoreClaim "abcde" "abcxy" := by
  have h1 : ¬ (normalize "abcde" = normalize "abcxy") := by decide
  have h2 : ¬ ((containsSub (normalize "abcde") (normalize "abcxy") ||
      containsSub (normalize "abcxy") (normalize "abcde")) = true) := by
    decide
  have hd : levenshtein_distance (normalize "abcde") (normalize "abcxy") = 2
      := by decide
  have hm : max (normalize "abcde").length (normalize "abcxy").length = 5
      := by decide
  have hm' : (((normalize "abcde").length : ℚ) ⊔
      ((normalize "abcxy").length : ℚ)) = 5 := by
    rw [← Nat.cast_max, hm]
    norm_num
  have hexact : aircraftScoreClaim "abcde" "abcxy" = 120 := by
    simp [aircraftScoreClaim, h1, h2, hd, hm, hm']
    norm_num
  have hfp : score_aircraft_guess "abcde" "abcxy" = 119 := by
    simp [score_aircraft_guess, h1, h2, hd, hm, hm']
    rw [show (2⁻¹ : ℚ) = 1 / 2 from by norm_num]
    rw [fl64_cex_div]
    rw [show (1 : ℚ) - 3602879701896397 / 9007199254740992 =
        5404319552844595 / 9007199254740992 from by norm_num]
    rw [fl64_cex_sim]
    rw [if_neg (by norm_num :
      ¬ ((5404319552844595 : ℚ) / 9007199254740992 < 1 / 2))]
    rw [show (5404319552844595 : ℚ) / 9007199254740992 - 1 / 2 =
        900719925474099 / 9007199254740992 from by norm_num]
    rw [fl64_cex_sub]
    rw [show MAX_AIRCRAFT_SCORE * ((900719925474099 : ℚ) /
        9007199254740992) = 112589990684262375 / 1125899906842624 from by
      norm_num [MAX_AIRCRAFT_SCORE]]
    rw [fl64_cex_mul1000]
    rw [show (3518437208883199 : ℚ) / 35184372088832 * 2 =
        3518437208883199 / 17592186044416 from by norm_num]
    rw [fl64_cex_double, fl64_six_tenths]
    rw [show (3518437208883199 : ℚ) / 17592186044416 *
        (5404319552844595 / 9007199254740992) =
        19014759003423434914443553459405 / 158456325028528675187087900672
        from by norm_num]
    rw [fl64_cex_prod]
    rw [Int.floor_eq_iff]
    constructor <;> norm_num
  exact ⟨hexact, hfp, by rw [hexact, hfp]; norm_num⟩

/-- C5 (amended): the aircraft similarity score, after trimming and
lowercasing both strings: 1000 on exact equality of the normalized
strings; else, when one normalized string contains the other,
`int(1000 * (shorter_len/longer_len) * 0.8)` evaluated in binary64; else,
with `similarity` the binary64 value of `1 − d/max(len)` for `d` the
Levenshtein distance, 0 when `similarity < 0.5` and
`int(1000 * (similarity − 0.5) * 2 * 0.6)` evaluated in binary64
otherwise — which can land one below the exact-arithmetic floor.  The
claim's examples hold: `Score("Boeing 737", "Boeing 737") = 1000`, and
`Score("Boeing", "Boeing 737-800") = 342`, strictly between 0 and
1000. -/
theorem score_aircraft_guess_spec :
    (∀ guess truth : String,
      score_aircraft_guess guess truth = aircraftScoreClaimFP guess truth) ∧
    score_aircraft_guess "Boeing 737" "Boeing 737" = 1000 ∧
    score_aircraft_guess "Boeing" "Boeing 737-800" = 342 ∧
    0 < score_aircraft_guess "Boeing" "Boeing 737-800" ∧
    score_aircraft_guess "Boeing" "Boeing 737-800" < 1000 := by
  have h342 : score_aircraft_guess "Boeing" "Boeing 737-800" = 342 := by
    have h1 : ¬ (normalize "Boeing" = normalize "Boeing 737-800") := by decide
    have h2 : (containsSub (normalize "Boeing") (normalize "Boeing 737-800")
        || containsSub (normalize "Boeing 737-800") (normalize "Boeing")) =
        true := by decide
    have hmin : min (normalize "Boeing").length
        (normalize "Boeing 737-800").length = 6 := by decide
    have hmax : max (normalize "Boeing").length
        (normalize "Boeing 737-800").length = 14 := by decide
    have hmin' : (((normalize "Boeing").length : ℚ) ⊓
        ((normalize "Boeing 737-800").length : ℚ)) = 6 := by
      rw [← Nat.cast_min, hmin]
      norm_num
    have hmax' : (((normalize "Boeing").length : ℚ) ⊔
        ((normalize "Boeing 737-800").length : ℚ)) = 14 := by
      rw [← Nat.cast_max, hmax]
      norm_num
    simp [score_aircraft_guess, h1, h2, hmin, hmax, hmin', hmax']
    rw [show ((6 : ℚ) / 14) = 3 / 7 from by norm_num, fl64_sub_ratio]
    rw [show MAX_AIRCRAFT_SCORE * ((7720456504063707 : ℚ) /
        18014398509481984) = 965057063007963375 / 2251799813685248 from by
      norm_num [MAX_AIRCRAFT_SCORE]]
    rw [fl64_sub_mul1000, fl64_eight_tenths]
    rw [show (3769754152374857 : ℚ) / 8796093022208 *
        (3602879701896397 / 4503599627370496) =
        13581970716731029541004121690229 / 39614081257132168796771975168
        from by norm_num]
    rw [fl64_sub_prod]
    rw [Int.floor_eq_iff]
    constructor <;> norm_num
  refine ⟨score_aircraft_guess_eq_claimFP, by rfl, h342, ?_, ?_⟩ <;>
    (rw [h342]; norm_num)

/-- C7: the location score is `(0, null)` whenever ground-truth airport
coordinates are unavailable (which, with the source's placeholder
`_get_airport_coordinates`, is always); otherwise, with `d` the haversine
distance handed back by the distance collaborator, the result is
`(scoreFromDistance d, d)` where `scoreFromDistance` is 1000 for
`d ≤ 50`, 0 for `d ≥ 5000` and `floor(1000 * (1 - (d-50)/(5000-50)))` in
between — monotonically non-increasing in distance, with
`scoreFromDistance 2525 = 500`. -/
theorem score_location_guess_spec :
    (∀ (lookup : String → Option (ℚ × ℚ)) (hv : ℚ → ℚ → ℚ → ℚ → ℚ)
        (glat glon : ℚ),
      (score_location_guess lookup hv glat glon none = (0, none)) ∧
      (∀ code : String, lookup code = none →
        score_location_guess lookup hv glat glon (some code) = (0, none)) ∧
      (∀ (code : String) (alat alon : ℚ), code ≠ "" →
        lookup code = some (alat, alon) →
        score_location_guess lookup hv glat glon (some code) =
          (scoreFromDistance (hv glat glon alat alon),
            some (hv glat glon alat alon)))) ∧
    (∀ (hv : ℚ → ℚ → ℚ → ℚ → ℚ) (glat glon : ℚ)
        (airport_code : Option String),
      score_location_guess get_airport_coordinates hv glat glon airport_code
        = (0, none)) ∧
    (∀ d : ℚ, scoreFromDistance d =
      if d ≤ 50 then 1000
      else if 5000 ≤ d then 0
      else ⌊(1000 : ℚ) * (1 - (d - 50) / (5000 - 50))⌋) ∧
    (∀ d1 d2 : ℚ, d1 ≤ d2 → scoreFromDistance d2 ≤ scoreFromDistance d1) ∧
    (scoreFromDistance 0 = 1000 ∧ scoreFromDistance 50 = 1000 ∧
      scoreFromDistance 5000 = 0 ∧ scoreFromDistance 2525 = 500) := by
  refine ⟨?_, ?_, scoreFromDistance_eq, scoreFromDistance_mono,
    ?_, ?_, ?_, ?_⟩
  · intro lookup hv glat glon
    refine ⟨rfl, ?_, ?_⟩
    · intro code h
      by_cases hc : code = "" <;> simp [score_location_guess, hc, h]
    · intro code alat alon hc h
      simp [score_location_guess, hc, h]
  · intro hv glat glon airport_code
    rcases airport_code with _ | code
    · rfl
    · by_cases hc : code = "" <;>
        simp [score_location_guess, get_airport_coordinates, hc]
  · rw [scoreFromDistance_eq]; norm_num
  · rw [scoreFromDistance_eq]; norm_num
  · rw [scoreFromDistance_eq]; norm_num
  · have hval : (1000 : ℚ) * (1 - (2525 - 50) / (5000 - 50)) = 500 := by
      norm_num
    rw [scoreFromDistance_eq]
    norm_num [hval]

/-- C7 witness: a stubbed coordinate lookup and distance collaborator
returning 2525 km produce the midpoint score 500, and the score at 200 km
is no larger than at 100 km. -/
theorem score_location_guess_spec_witness :
    (score_location_guess (fun _ => some (1, 2)) (fun _ _ _ _ => 2525) 0 0
      (some "JFK") = (scoreFromDistance 2525, some 2525)) ∧
    scoreFromDistance 2525 = 500 ∧
    scoreFromDistance 200 ≤ scoreFromDistance 100 :=
  ⟨(score_location_guess_spec.1 (fun _ => some (1, 2)) (fun _ _ _ _ => 2525)
      0 0).2.2 "JFK" 1 2 (by decide) rfl,
    score_location_guess_spec.2.2.2.2.2.2.2,
    score_location_guess_spec.2.2.2.1 100 200 (by norm_num)⟩

end Airfeeld
